import Mathlib

/-!
Shallow embedding of the booking core of `src/main.py` (photo-studio booking
manager): the classes `Client`, `Hall`, `Equipment`, `Booking`, `Studio` and
the adapter method `StudioAdapter.add_client`, together with theorems checking
the natural-language specification against them.

Modelling conventions:
* Python `float` rates and costs are modelled as `ℚ` (the spec states no
  rounding happens inside the pricing engine, and all arithmetic in the
  source is exact on the values of interest).
* The `date` string (`"dd.MM.yyyy"`) and the `time` string (`"hh:mm"`) are
  only ever compared for equality by the source; they are modelled as `Nat`
  labels (`time` read as minute-of-day, so that the spec's interval
  `[start, start + duration)` — duration in hours — becomes
  `[t, t + 60 * d)` in minutes). Equality of well-formed strings coincides
  with equality of the labels.
* Python compares `Hall` objects with `==`; `Hall` defines no `__eq__`, so
  this is object identity. Each object carries an `oid : Nat` modelling its
  Python identity (`id()`), and `hallEq` compares `oid`s.
* Exceptions become an explicit outcome value; a state-mutating method
  becomes a function returning the new state.
-/

namespace PhotoStudio

/-- `Client` from `src/main.py` (via `Person`): first name, last name, phone,
and the private `_discount` field, an integer. `oid` models Python object
identity. -/
structure Client where
  oid : Nat
  fname : String
  lname : String
  phone : String
  discount : Int
  deriving Repr, DecidableEq

/-- `Client.__init__`: stores the names and phone and starts `_discount` at
0. -/
def mkClient (oid : Nat) (fname lname phone : String) : Client :=
  { oid := oid, fname := fname, lname := lname, phone := phone, discount := 0 }

/-- `Client.apply_discount`: if `0 <= amount <= 30`, store the amount and
return `True`; otherwise return `False` leaving the stored discount
untouched. Returns the flag together with the (possibly updated) client. -/
def Client.apply_discount (c : Client) (amount : Int) : Bool × Client :=
  if 0 ≤ amount ∧ amount ≤ 30 then (true, { c with discount := amount })
  else (false, c)

/-- `Hall` from `src/main.py`: number, hourly price, capacity. `oid` models
Python object identity. -/
structure Hall where
  oid : Nat
  number : Int
  price : ℚ
  capacity : Int
  deriving Repr, DecidableEq

/-- Python `==` on `Hall`: the class defines no `__eq__`, so comparison is
object identity, modelled by comparing `oid`s. -/
def hallEq (a b : Hall) : Bool :=
  a.oid == b.oid

/-- `Hall.calculate_cost`: `price * hours`. -/
def Hall.calculate_cost (h : Hall) (hours : Nat) : ℚ :=
  h.price * hours

/-- `Equipment` from `src/main.py`: name and hourly price. `oid` models
Python object identity. -/
structure Equipment where
  oid : Nat
  name : String
  price : ℚ
  deriving Repr, DecidableEq

/-- `Equipment.calculate_cost`: `price * hours`. -/
def Equipment.calculate_cost (e : Equipment) (hours : Nat) : ℚ :=
  e.price * hours

/-- `Booking` from `src/main.py`: a client, a hall, a list of equipment, and
the date / start time / duration labels. The source stores `equipment` as a
Python list (ordered, duplicates kept). -/
structure Booking where
  client : Client
  hall : Hall
  equipment : List Equipment
  date : Nat
  time : Nat
  duration : Nat
  deriving Repr, DecidableEq

/-- `Booking.calculate_total_cost`:
`hall_cost = hall.calculate_cost(duration)`;
`equipment_cost = sum(eq.calculate_cost(duration) for eq in equipment)`;
result `= (hall_cost + equipment_cost) * (1 - client._discount / 100)`. -/
def Booking.calculate_total_cost (b : Booking) : ℚ :=
  let hall_cost := b.hall.calculate_cost b.duration
  let equipment_cost := (b.equipment.map (fun eq => eq.calculate_cost b.duration)).sum
  let total := hall_cost + equipment_cost
  total * (1 - (b.client.discount : ℚ) / 100)

/-- `Studio` from `src/main.py`: the booking ledger plus the hall, equipment
and client registries. -/
structure Studio where
  bookings : List Booking
  halls : List Hall
  equipment : List Equipment
  clients : List Client
  deriving Repr, DecidableEq

/-- `Studio.__init__`: all four collections start empty. -/
def Studio.empty : Studio :=
  { bookings := [], halls := [], equipment := [], clients := [] }

/-- The loop body of `Studio._is_hall_available`: scan the bookings and return
`False` on the first one with the same hall (Python `==`, i.e. identity),
same date and same time; return `True` if none matches. -/
def is_hall_available : List Booking → Hall → Nat → Nat → Bool
  | [], _, _, _ => true
  | b :: rest, hall, date, time =>
    if hallEq b.hall hall && b.date == date && b.time == time then false
    else is_hall_available rest hall date time

/-- `Studio._is_hall_available(hall, date, time)`. -/
def Studio.is_hall_avail (s : Studio) (hall : Hall) (date time : Nat) : Bool :=
  is_hall_available s.bookings hall date time

/-- Outcome of `Studio.add_booking`: normal return `True`, or the raised
`HallNotAvailableError` carrying `(hall.number, date, time)`. -/
inductive AddOutcome where
  | ok
  | hallNotAvailable (hall_number : Int) (date : Nat) (time : Nat)
  deriving Repr, DecidableEq

/-- `Studio.add_booking`: if `_is_hall_available(booking.hall, booking.date,
booking.time)` is false, raise `HallNotAvailableError(hall.number, date,
time)` — the ledger is left as it was; otherwise append the booking and
return `True`. -/
def Studio.add_booking (s : Studio) (b : Booking) : Studio × AddOutcome :=
  if !(is_hall_available s.bookings b.hall b.date b.time) then
    (s, AddOutcome.hallNotAvailable b.hall.number b.date b.time)
  else
    ({ s with bookings := s.bookings ++ [b] }, AddOutcome.ok)

/-- `Studio.add_client`: append to the client registry. -/
def Studio.add_client (s : Studio) (c : Client) : Studio :=
  { s with clients := s.clients ++ [c] }

/-- `StudioAdapter.add_client(first_name, last_name, phone, discount)`:
construct a `Client` (discount 0), call `apply_discount(discount)` only when
`discount > 0` (ignoring its boolean result), register the client, return
it. No input is validated and no error can be returned. -/
def StudioAdapter.add_client (s : Studio) (oid : Nat)
    (first_name last_name phone : String) (discount : Int) : Studio × Client :=
  let client := mkClient oid first_name last_name phone
  let client := if discount > 0 then (client.apply_discount discount).2 else client
  (s.add_client client, client)

/-- Run a sequence of admission requests through `Studio.add_booking`,
keeping the ledger state and discarding the outcomes (a raised
`HallNotAvailableError` leaves the state unchanged). -/
def admitAll (reqs : List Booking) (s : Studio) : Studio :=
  reqs.foldl (fun st b => (st.add_booking b).1) s

/-- Modelled from the spec: `validatePhone(client)`, the Client Registry's
pure predicate "digits-only AND length == 11" (§4.2). No such predicate
exists anywhere in `src/`; it is stated here only to express claims that
mention it. -/
def validatePhone (phone : String) : Bool :=
  phone.toList.all Char.isDigit && phone.length == 11

/-- The spec's notion of time-interval overlap for two bookings: the
intervals `[t, t + duration)` (duration in hours, `t` in minutes) intersect. -/
def intervalsOverlap (t1 d1 t2 d2 : Nat) : Prop :=
  max t1 t2 < min (t1 + 60 * d1) (t2 + 60 * d2)

/-- The exact-match no-duplicate property the ledger actually maintains: no
two distinct bookings in the list share (hall-identity, date, time). -/
def NoExactDup (bs : List Booking) : Prop :=
  bs.Pairwise (fun b1 b2 => ¬(hallEq b1.hall b2.hall = true ∧ b1.date = b2.date ∧ b1.time = b2.time))

/-- Reachable client states: start from `Client.__init__` output and apply a
sequence of `apply_discount` calls (each call either updates the stored
discount or leaves the client untouched). -/
def applyDiscounts (c : Client) (amounts : List Int) : Client :=
  amounts.foldl (fun cl a => (cl.apply_discount a).2) c

/- ===================== Concrete sample data ===================== -/

/-- Scenario D hall: `Hall(1, 2000, 5)` from `_init_default_data`. -/
def hallD : Hall :=
  { oid := 1, number := 1, price := 2000, capacity := 5 }

/-- Scenario D client. -/
def clientD : Client :=
  mkClient 10 "Ivan" "Petrov" "89001234567"

/-- Scenario D first request: Hall 1, date 2025-02-10, 15:00 (minute 900),
duration 2. -/
def bookD1 : Booking :=
  { client := clientD, hall := hallD, equipment := [], date := 20250210,
    time := 900, duration := 2 }

/-- Scenario D second request: same hall, date and time, duration 1. -/
def bookD2 : Booking :=
  { client := clientD, hall := hallD, equipment := [], date := 20250210,
    time := 900, duration := 1 }

/-- The studio after admitting the first Scenario D request. -/
def studioD : Studio :=
  (Studio.empty.add_booking bookD1).1

/-- A hall used by the duplicate-equipment example. -/
def hallE : Hall :=
  { oid := 2, number := 1, price := 2000, capacity := 5 }

/-- An equipment item used by the duplicate-equipment example. -/
def equipE : Equipment :=
  { oid := 3, name := "Light", price := 500 }

/-- A booking listing `equipE` twice. -/
def bookETwice : Booking :=
  { client := mkClient 11 "Ann" "Lee" "89001234567", hall := hallE,
    equipment := [equipE, equipE], date := 0, time := 600, duration := 2 }

/-- The same booking listing `equipE` once. -/
def bookEOnce : Booking :=
  { client := mkClient 11 "Ann" "Lee" "89001234567", hall := hallE,
    equipment := [equipE], date := 0, time := 600, duration := 2 }

/-- Hall for the overlapping-interval example. -/
def hallA : Hall :=
  { oid := 5, number := 1, price := 2000, capacity := 5 }

/-- First overlap request: 10:00 (minute 600) for 2 hours, interval
[600, 720). -/
def bookA1 : Booking :=
  { client := mkClient 12 "Oleg" "Ivanov" "89001234567", hall := hallA,
    equipment := [], date := 100, time := 600, duration := 2 }

/-- Second overlap request: same hall and date, 11:00 (minute 660) for 1
hour, interval [660, 720) — overlapping the first but with a different
start time. -/
def bookA2 : Booking :=
  { client := mkClient 12 "Oleg" "Ivanov" "89001234567", hall := hallA,
    equipment := [], date := 100, time := 660, duration := 1 }

/-- A booking whose client's phone is not 11 digits. -/
def badPhoneBooking : Booking :=
  { client := mkClient 13 "Eva" "Li" "abc",
    hall := { oid := 6, number := 2, price := 3000, capacity := 10 },
    equipment := [], date := 7, time := 630, duration := 3 }

/-- First of two distinct Hall objects with identical field values. -/
def hallX1 : Hall :=
  { oid := 7, number := 9, price := 2500, capacity := 8 }

/-- Second Hall object: same number, price and capacity as `hallX1`, but a
different object identity. -/
def hallX2 : Hall :=
  { oid := 8, number := 9, price := 2500, capacity := 8 }

/-- A booking for `hallX1`. -/
def bookX1 : Booking :=
  { client := mkClient 14 "Bob" "Ray" "89007654321", hall := hallX1,
    equipment := [], date := 42, time := 720, duration := 2 }

/-- A booking for `hallX2` at the same date and time as `bookX1`. -/
def bookX2 : Booking :=
  { client := mkClient 14 "Bob" "Ray" "89007654321", hall := hallX2,
    equipment := [], date := 42, time := 720, duration := 2 }

/-- The studio after admitting `bookX1`. -/
def studioX : Studio :=
  (Studio.empty.add_booking bookX1).1

/-- A booking with nonneg rates and a 10% discount, for the monotonicity
instantiation. -/
def bookM : Booking :=
  { client := { oid := 12, fname := "Mia", lname := "Kim",
                phone := "89001112233", discount := 10 },
    hall := { oid := 9, number := 3, price := 2500, capacity := 8 },
    equipment := [{ oid := 10, name := "Light", price := 500 }],
    date := 0, time := 600, duration := 2 }

/-- An extra equipment item for the monotonicity instantiation. -/
def equipM : Equipment :=
  { oid := 11, name := "Backdrop", price := 200 }

/- ===================== Theorems ===================== -/

/-- The scan of `_is_hall_available` returns `True` exactly when no stored
booking matches the probe on (hall identity, date, time). -/
theorem is_hall_available_iff (bs : List Booking) (h : Hall) (d t : Nat) :
    is_hall_available bs h d t = true ↔
      ∀ b ∈ bs, ¬(hallEq b.hall h = true ∧ b.date = d ∧ b.time = t) := by
  induction bs with
  | nil => simp [is_hall_available]
  | cons x rest ih =>
    simp only [is_hall_available]
    split
    · rename_i hx
      simp only [Bool.and_eq_true, beq_iff_eq] at hx
      constructor
      · intro hfalse
        exact absurd hfalse Bool.false_ne_true
      · intro hall
        exact absurd ⟨hx.1.1, hx.1.2, hx.2⟩ (hall x (List.mem_cons_self x rest))
    · rename_i hx
      rw [ih]
      constructor
      · intro hall b hb
        rcases List.mem_cons.mp hb with hb | hb
        · subst hb
          intro hcontra
          exact hx (by simp [Bool.and_eq_true, beq_iff_eq, hcontra.1, hcontra.2.1, hcontra.2.2])
        · exact hall b hb
      · intro hall b hb
        exact hall b (List.mem_cons_of_mem x hb)

/-- The complementary characterisation: the scan reports "unavailable"
exactly when some stored booking matches the probe on
(hall identity, date, time). -/
theorem is_hall_available_eq_false_iff (bs : List Booking) (h : Hall) (d t : Nat) :
    is_hall_available bs h d t = false ↔
      ∃ b ∈ bs, hallEq b.hall h = true ∧ b.date = d ∧ b.time = t := by
  rw [← Bool.not_eq_true, is_hall_available_iff]
  push_neg
  simp only [not_not]

/-- Rewriting every stored booking's duration does not change the scan: the
availability check never reads a duration. -/
theorem is_hall_available_duration_irrelevant (bs : List Booking)
    (f : Booking → Nat) (h : Hall) (d t : Nat) :
    is_hall_available (bs.map (fun b => { b with duration := f b })) h d t =
      is_hall_available bs h d t := by
  induction bs with
  | nil => rfl
  | cons x rest ih => simp only [List.map_cons, is_hall_available, ih]

/-- C2: for every ledger state and candidate (hall, date, time), the
availability check `Studio._is_hall_available` reports the slot unavailable
iff some stored booking matches the candidate exactly on hall identity, date
and start time; durations (of the candidate — which is not even passed to
the check — and of the stored bookings) never affect the result. -/
theorem exact_match_availability :
    (∀ (s : Studio) (h : Hall) (d t : Nat),
      s.is_hall_avail h d t = false ↔
        ∃ b ∈ s.bookings, hallEq b.hall h = true ∧ b.date = d ∧ b.time = t) ∧
    (∀ (s : Studio) (f : Booking → Nat) (h : Hall) (d t : Nat),
      Studio.is_hall_avail { s with bookings := s.bookings.map (fun b => { b with duration := f b }) } h d t =
        s.is_hall_avail h d t) := by
  constructor
  · intro s h d t
    exact is_hall_available_eq_false_iff s.bookings h d t
  · intro s f h d t
    exact is_hall_available_duration_irrelevant s.bookings f h d t

/-- C4: the computed total cost equals the spec's pricing formula
`(hall.rate * duration + Σ item.rate * duration) * (1 − discount/100)`;
on the spec's concrete scenarios, a 2000-rate hall for 2 hours with one
500-rate item costs 5000 at discount 0 and 4500 at discount 10. -/
theorem total_cost_formula :
    (∀ b : Booking,
      b.calculate_total_cost =
        (b.hall.price * (b.duration : ℚ) +
          (b.equipment.map (fun e => e.price * (b.duration : ℚ))).sum) *
          (1 - (b.client.discount : ℚ) / 100)) ∧
    (Booking.calculate_total_cost
      { client := mkClient 0 "Ann" "Lee" "89001234567",
        hall := { oid := 1, number := 1, price := 2000, capacity := 5 },
        equipment := [{ oid := 2, name := "Light", price := 500 }],
        date := 0, time := 900, duration := 2 } = 5000) ∧
    (Booking.calculate_total_cost
      { client := ((mkClient 0 "Ann" "Lee" "89001234567").apply_discount 10).2,
        hall := { oid := 1, number := 1, price := 2000, capacity := 5 },
        equipment := [{ oid := 2, name := "Light", price := 500 }],
        date := 0, time := 900, duration := 2 } = 4500) := by
  refine ⟨fun b => rfl, ?_, ?_⟩
  · norm_num [Booking.calculate_total_cost, Hall.calculate_cost,
      Equipment.calculate_cost, mkClient]
  · norm_num [Booking.calculate_total_cost, Hall.calculate_cost,
      Equipment.calculate_cost, mkClient, Client.apply_discount]

/-- A single `apply_discount` call keeps the stored discount inside [0, 30]
whenever it was inside before the call. -/
theorem apply_discount_preserves_bounds (c : Client) (a : Int)
    (h0 : 0 ≤ c.discount) (h30 : c.discount ≤ 30) :
    0 ≤ ((c.apply_discount a).2).discount ∧ ((c.apply_discount a).2).discount ≤ 30 := by
  unfold Client.apply_discount
  split
  · rename_i hc
    exact ⟨hc.1, hc.2⟩
  · exact ⟨h0, h30⟩

/-- Every client state reachable from a fresh client by `apply_discount`
calls has its discount inside [0, 30]. -/
theorem applyDiscounts_bounds (c : Client) (amounts : List Int)
    (h0 : 0 ≤ c.discount) (h30 : c.discount ≤ 30) :
    0 ≤ (applyDiscounts c amounts).discount ∧ (applyDiscounts c amounts).discount ≤ 30 := by
  induction amounts generalizing c with
  | nil => exact ⟨h0, h30⟩
  | cons a rest ih =>
    have hstep := apply_discount_preserves_bounds c a h0 h30
    exact ih _ hstep.1 hstep.2

/-- C6: `apply_discount(amount)` returns `True` iff `0 ≤ amount ≤ 30`; on
success the amount is stored, on failure the client is untouched; a fresh
client starts at discount 0, and every client state reachable by
`apply_discount` calls keeps the discount inside [0, 30]. -/
theorem apply_discount_spec :
    (∀ (c : Client) (a : Int), (c.apply_discount a).1 = true ↔ 0 ≤ a ∧ a ≤ 30) ∧
    (∀ (c : Client) (a : Int), (c.apply_discount a).1 = true →
      ((c.apply_discount a).2).discount = a) ∧
    (∀ (c : Client) (a : Int), (c.apply_discount a).1 = false →
      (c.apply_discount a).2 = c) ∧
    (∀ (oid : Nat) (f l p : String), (mkClient oid f l p).discount = 0) ∧
    (∀ (oid : Nat) (f l p : String) (amounts : List Int),
      0 ≤ (applyDiscounts (mkClient oid f l p) amounts).discount ∧
      (applyDiscounts (mkClient oid f l p) amounts).discount ≤ 30) := by
  refine ⟨?_, ?_, ?_, fun oid f l p => rfl, ?_⟩
  · intro c a
    unfold Client.apply_discount
    split
    · rename_i hc
      simpa using hc
    · rename_i hc
      simpa using hc
  · intro c a h
    unfold Client.apply_discount at h ⊢
    split at h
    · rename_i hc
      simp [Client.apply_discount, hc]
    · exact absurd h (by simp)
  · intro c a h
    unfold Client.apply_discount at h ⊢
    split at h
    · exact absurd h (by simp)
    · rename_i hc
      simp [Client.apply_discount, hc]
  · intro oid f l p amounts
    exact applyDiscounts_bounds _ amounts (by norm_num [mkClient]) (by norm_num [mkClient])

/-- Instantiation of `apply_discount_spec`: discount 15 is accepted and
stored, discount 40 is refused leaving the client untouched, and a sample
call sequence keeps the discount in [0, 30]. -/
theorem apply_discount_spec_witness :
    (((mkClient 7 "Ann" "Lee" "89001234567").apply_discount 15).1 = true) ∧
    (((mkClient 7 "Ann" "Lee" "89001234567").apply_discount 15).2).discount = 15 ∧
    (((mkClient 7 "Ann" "Lee" "89001234567").apply_discount 40).1 = false) ∧
    (((mkClient 7 "Ann" "Lee" "89001234567").apply_discount 40).2 =
      mkClient 7 "Ann" "Lee" "89001234567") ∧
    (0 ≤ (applyDiscounts (mkClient 7 "Ann" "Lee" "89001234567") [15, 40, -3]).discount ∧
      (applyDiscounts (mkClient 7 "Ann" "Lee" "89001234567") [15, 40, -3]).discount ≤ 30) := by
  refine ⟨(apply_discount_spec.1 _ _).mpr (by decide),
    apply_discount_spec.2.1 _ _ ((apply_discount_spec.1 _ _).mpr (by decide)),
    by decide,
    apply_discount_spec.2.2.1 _ _ (by decide),
    apply_discount_spec.2.2.2.2 7 "Ann" "Lee" "89001234567" [15, 40, -3]⟩

/-- C3: when the requested slot is occupied, `add_booking` raises
`HallNotAvailableError` carrying the request's hall number, date and time,
and the ledger's booking list is left exactly as it was. -/
theorem add_booking_rejection (s : Studio) (b : Booking)
    (h : is_hall_available s.bookings b.hall b.date b.time = false) :
    (s.add_booking b).2 = AddOutcome.hallNotAvailable b.hall.number b.date b.time ∧
    (s.add_booking b).1.bookings = s.bookings := by
  simp [Studio.add_booking, h]

/-- Scenario D instantiating `add_booking_rejection`: the first admission
for Hall 1 at 2025-02-10 15:00 succeeds; the second admission for the same
hall, date and time is rejected with the error carrying (1, date, 15:00),
and the ledger still holds exactly one booking. -/
theorem add_booking_rejection_witness :
    ((Studio.empty.add_booking bookD1).2 = AddOutcome.ok) ∧
    (is_hall_available studioD.bookings bookD2.hall bookD2.date bookD2.time = false) ∧
    ((studioD.add_booking bookD2).2 = AddOutcome.hallNotAvailable 1 20250210 900 ∧
      (studioD.add_booking bookD2).1.bookings = studioD.bookings) ∧
    (studioD.bookings.length = 1) := by
  refine ⟨by decide, by decide, ?_, by decide⟩
  exact add_booking_rejection studioD bookD2 (by decide)

/-- C7 (amended): `StudioAdapter.add_client` validates nothing and never
returns an error: for every input — including empty names or phone and a
discount outside [0, 30] — it appends a new client to the registry and
returns it; the stored discount is the requested one when it lies in
(0, 30] and 0 otherwise, and the bookings are untouched. -/
theorem adapter_add_client_unvalidated :
    ∀ (s : Studio) (oid : Nat) (f l p : String) (d : Int),
      (StudioAdapter.add_client s oid f l p d).1.clients =
        s.clients ++ [(StudioAdapter.add_client s oid f l p d).2] ∧
      (StudioAdapter.add_client s oid f l p d).1.bookings = s.bookings ∧
      ((StudioAdapter.add_client s oid f l p d).2).fname = f ∧
      ((StudioAdapter.add_client s oid f l p d).2).lname = l ∧
      ((StudioAdapter.add_client s oid f l p d).2).phone = p ∧
      ((StudioAdapter.add_client s oid f l p d).2).discount =
        if 0 < d ∧ d ≤ 30 then d else 0 := by
  intro s oid f l p d
  simp only [StudioAdapter.add_client, Studio.add_client, mkClient, Client.apply_discount]
  by_cases h1 : 0 < d
  · by_cases h2 : d ≤ 30
    · have h0 : (0 : Int) ≤ d := le_of_lt h1
      simp [h1, h2, h0]
    · simp [h1, h2]
  · have hn : ¬(0 < d ∧ d ≤ 30) := fun hc => h1 hc.1
    simp [h1, hn]

/-- Counterexample to C7 as stated: with empty first name, last name and
phone and a requested discount of 40 — all of which the claim says must be
rejected with a `ValidationError` — `StudioAdapter.add_client` still adds a
client to the registry (silently storing discount 0). -/
theorem adapter_add_client_rejects_nothing_cex :
    ((StudioAdapter.add_client Studio.empty 0 "" "" "" 40).1.clients.length = 1) ∧
    (((StudioAdapter.add_client Studio.empty 0 "" "" "" 40).2).discount = 0) ∧
    (((StudioAdapter.add_client Studio.empty 0 "" "" "" 40).2).fname = "") := by
  decide

/-- C9 (amended): duplicates in a booking's equipment list do NOT collapse —
each occurrence is billed: listing an item a second time raises the total
cost by `item.rate * duration * (1 − discount/100)`. -/
theorem equipment_duplicates_billed :
    ∀ (c : Client) (h : Hall) (e : Equipment) (rest : List Equipment) (d t dur : Nat),
      Booking.calculate_total_cost
        { client := c, hall := h, equipment := e :: e :: rest, date := d,
          time := t, duration := dur } =
      Booking.calculate_total_cost
        { client := c, hall := h, equipment := e :: rest, date := d,
          time := t, duration := dur } +
        e.price * (dur : ℚ) * (1 - (c.discount : ℚ) / 100) := by
  intro c h e rest d t dur
  simp only [Booking.calculate_total_cost, Equipment.calculate_cost,
    Hall.calculate_cost, List.map_cons, List.sum_cons]
  ring

/-- Counterexample to C9 as stated: a booking listing the same 500-rate item
twice (2 hours, 2000-rate hall, discount 0) costs 6000, not the 5000 of the
single-occurrence booking — duplicates do not collapse. -/
theorem equipment_duplicates_collapse_cex :
    Booking.calculate_total_cost bookETwice = 6000 ∧
    Booking.calculate_total_cost bookEOnce = 5000 ∧
    Booking.calculate_total_cost bookETwice ≠ Booking.calculate_total_cost bookEOnce := by
  refine ⟨?_, ?_, ?_⟩
  · norm_num [Booking.calculate_total_cost, Hall.calculate_cost,
      Equipment.calculate_cost, mkClient, bookETwice, hallE, equipE]
  · norm_num [Booking.calculate_total_cost, Hall.calculate_cost,
      Equipment.calculate_cost, mkClient, bookEOnce, hallE, equipE]
  · norm_num [Booking.calculate_total_cost, Hall.calculate_cost,
      Equipment.calculate_cost, mkClient, bookETwice, bookEOnce, hallE, equipE]

/-- An admission step preserves the exact-match no-duplicate property of
the ledger: a new booking is only appended when no stored booking matches
it on (hall identity, date, time). -/
theorem add_booking_preserves_noExactDup (s : Studio) (b : Booking)
    (hs : NoExactDup s.bookings) : NoExactDup (s.add_booking b).1.bookings := by
  by_cases havail : is_hall_available s.bookings b.hall b.date b.time = true
  · simp only [Studio.add_booking, havail, Bool.not_true, Bool.false_eq_true,
      if_false]
    unfold NoExactDup
    rw [List.pairwise_append]
    refine ⟨hs, List.pairwise_singleton _ _, ?_⟩
    intro b1 hb1 b2 hb2
    rw [List.mem_singleton] at hb2
    rw [hb2]
    exact (is_hall_available_iff s.bookings b.hall b.date b.time).mp havail b1 hb1
  · have hf : is_hall_available s.bookings b.hall b.date b.time = false := by
      simpa using havail
    simp only [Studio.add_booking, hf, Bool.not_false, if_true]
    exact hs

/-- Running any sequence of admission requests preserves the exact-match
no-duplicate property. -/
theorem admitAll_noExactDup (reqs : List Booking) (s : Studio)
    (hs : NoExactDup s.bookings) : NoExactDup (admitAll reqs s).bookings := by
  induction reqs generalizing s with
  | nil => exact hs
  | cons r rest ih => exact ih _ (add_booking_preserves_noExactDup s r hs)

/-- C1 (amended): for every sequence of admission calls from the empty
ledger, no two distinct bookings held for the same hall share the same
(date, start time) — the exact-match policy; overlapping-but-not-identical
intervals are NOT excluded (see the counterexample). -/
theorem admission_no_exact_duplicate :
    ∀ reqs : List Booking, NoExactDup (admitAll reqs Studio.empty).bookings := by
  intro reqs
  exact admitAll_noExactDup reqs Studio.empty List.Pairwise.nil

/-- Counterexample to C1 as stated: two admissions for the same hall and
date at 10:00 × 2h and 11:00 × 1h are both accepted, and their intervals
[600, 720) and [660, 720) overlap. -/
theorem overlapping_bookings_admitted_cex :
    ((admitAll [bookA1, bookA2] Studio.empty).bookings = [bookA1, bookA2]) ∧
    bookA1 ≠ bookA2 ∧
    hallEq bookA1.hall bookA2.hall = true ∧
    bookA1.date = bookA2.date ∧
    intervalsOverlap bookA1.time bookA1.duration bookA2.time bookA2.duration := by
  refine ⟨rfl, ?_, by decide, by decide, ?_⟩
  · intro h
    have := congrArg Booking.time h
    simp [bookA1, bookA2] at this
  · norm_num [intervalsOverlap, bookA1, bookA2]

/-- C8 (amended): admission never validates the client's phone — even when
the phone fails the digits-only length-11 predicate, `add_booking` is
governed solely by hall availability, and on success the booking (invalid
phone included) is appended to the ledger. -/
theorem admission_ignores_phone (s : Studio) (b : Booking)
    (_hbad : validatePhone b.client.phone = false) :
    ((s.add_booking b).2 = AddOutcome.ok ↔
      is_hall_available s.bookings b.hall b.date b.time = true) ∧
    ((s.add_booking b).2 = AddOutcome.ok →
      (s.add_booking b).1.bookings = s.bookings ++ [b]) := by
  by_cases havail : is_hall_available s.bookings b.hall b.date b.time = true
  · simp [Studio.add_booking, havail]
  · have hf : is_hall_available s.bookings b.hall b.date b.time = false :=
      Bool.eq_false_iff.mpr (fun hc => havail hc)
    simp [Studio.add_booking, hf]

/-- Instantiation of `admission_ignores_phone` at a client whose phone
`"abc"` fails the predicate: the booking is still admitted into the empty
studio. -/
theorem admission_ignores_phone_witness :
    (validatePhone badPhoneBooking.client.phone = false) ∧
    ((Studio.empty.add_booking badPhoneBooking).2 = AddOutcome.ok ↔
      is_hall_available Studio.empty.bookings badPhoneBooking.hall
        badPhoneBooking.date badPhoneBooking.time = true) ∧
    ((Studio.empty.add_booking badPhoneBooking).2 = AddOutcome.ok →
      (Studio.empty.add_booking badPhoneBooking).1.bookings =
        Studio.empty.bookings ++ [badPhoneBooking]) := by
  have h := admission_ignores_phone Studio.empty badPhoneBooking (by decide)
  exact ⟨by decide, h.1, h.2⟩

/-- Counterexample to C8 as stated: the phone `"abc"` fails the digits-only
length-11 predicate, yet the admission succeeds and the booking is
inserted — no `ValidationError` is possible. -/
theorem invalid_phone_admitted_cex :
    (validatePhone badPhoneBooking.client.phone = false) ∧
    ((Studio.empty.add_booking badPhoneBooking).2 = AddOutcome.ok) ∧
    ((Studio.empty.add_booking badPhoneBooking).1.bookings.length = 1) := by
  decide

/-- C10: the availability check compares halls by object identity: whenever
all stored bookings are for a hall object distinct from the candidate's
(different `oid`, whatever the field values), the candidate slot is
reported free and the admission succeeds, appending the new booking. -/
theorem hall_identity_no_conflict (s : Studio) (h1 h2 : Hall) (b2 : Booking)
    (hne : h1.oid ≠ h2.oid) (hall_of : ∀ b ∈ s.bookings, b.hall = h1)
    (hb2 : b2.hall = h2) :
    s.is_hall_avail h2 b2.date b2.time = true ∧
    (s.add_booking b2).2 = AddOutcome.ok ∧
    (s.add_booking b2).1.bookings = s.bookings ++ [b2] := by
  have havail : is_hall_available s.bookings h2 b2.date b2.time = true := by
    rw [is_hall_available_iff]
    intro b hb hcontra
    have hb1 : b.hall = h1 := hall_of b hb
    have hE : hallEq h1 h2 = true := by rw [← hb1]; exact hcontra.1
    simp only [hallEq, beq_iff_eq] at hE
    exact hne hE
  have havail2 : is_hall_available s.bookings b2.hall b2.date b2.time = true := by
    rw [hb2]; exact havail
  refine ⟨havail, ?_, ?_⟩
  · simp [Studio.add_booking, havail2]
  · simp [Studio.add_booking, havail2]

/-- Instantiation of `hall_identity_no_conflict`: two Hall objects with the
same number (9), price and capacity but different identities; after booking
the first at date 42, 12:00, the second is still free at the same date and
time, and both bookings end up in the ledger. -/
theorem hall_identity_no_conflict_witness :
    (hallX1.number = hallX2.number ∧ hallX1.price = hallX2.price ∧
      hallX1.capacity = hallX2.capacity) ∧
    hallX1.oid ≠ hallX2.oid ∧
    (studioX.is_hall_avail hallX2 bookX2.date bookX2.time = true ∧
      (studioX.add_booking bookX2).2 = AddOutcome.ok ∧
      (studioX.add_booking bookX2).1.bookings = studioX.bookings ++ [bookX2]) ∧
    ((studioX.add_booking bookX2).1.bookings.length = 2) ∧
    bookX1.date = bookX2.date ∧ bookX1.time = bookX2.time := by
  have hof : ∀ b ∈ studioX.bookings, b.hall = hallX1 := by
    intro b hb
    have hX : studioX.bookings = [bookX1] := rfl
    rw [hX, List.mem_singleton] at hb
    subst hb
    rfl
  refine ⟨⟨rfl, rfl, rfl⟩, by decide, ?_, by decide, by decide, by decide⟩
  exact hall_identity_no_conflict studioX hallX1 hallX2 bookX2 (by decide) hof rfl

/-- Summing per-item costs factors the common duration out. -/
theorem equipment_sum_factors (l : List Equipment) (d : ℚ) :
    (l.map (fun e => e.price * d)).sum = (l.map (fun e => e.price)).sum * d := by
  induction l with
  | nil => simp
  | cons x rest ih => simp [ih, add_mul]

/-- The total cost factors as
`(hall.rate + Σ item.rate) * duration * (1 − discount/100)`. -/
theorem total_cost_factored (b : Booking) :
    b.calculate_total_cost =
      (b.hall.price + (b.equipment.map (fun e => e.price)).sum) * (b.duration : ℚ) *
        (1 - (b.client.discount : ℚ) / 100) := by
  simp only [Booking.calculate_total_cost, Hall.calculate_cost, Equipment.calculate_cost]
  rw [equipment_sum_factors]
  ring

/-- C5: with non-negative hall and equipment rates and the discount in
[0, 30], the total cost is monotone non-decreasing in the duration, never
lowered by adding an equipment item, and monotone non-increasing in the
client's discount (all other inputs fixed). -/
theorem total_cost_monotonicity :
    (∀ (b : Booking) (d1 d2 : Nat), 0 ≤ b.hall.price →
      (∀ e ∈ b.equipment, 0 ≤ e.price) →
      0 ≤ b.client.discount → b.client.discount ≤ 30 → d1 ≤ d2 →
      Booking.calculate_total_cost { b with duration := d1 } ≤
        Booking.calculate_total_cost { b with duration := d2 }) ∧
    (∀ (b : Booking) (e : Equipment), 0 ≤ e.price →
      0 ≤ b.client.discount → b.client.discount ≤ 30 →
      Booking.calculate_total_cost b ≤
        Booking.calculate_total_cost { b with equipment := e :: b.equipment }) ∧
    (∀ (b : Booking) (a1 a2 : Int), 0 ≤ b.hall.price →
      (∀ e ∈ b.equipment, 0 ≤ e.price) →
      0 ≤ a1 → a2 ≤ 30 → a1 ≤ a2 →
      Booking.calculate_total_cost { b with client := { b.client with discount := a2 } } ≤
        Booking.calculate_total_cost { b with client := { b.client with discount := a1 } }) := by
  have sum_nonneg : ∀ l : List Equipment, (∀ e ∈ l, 0 ≤ e.price) →
      0 ≤ (l.map (fun e => e.price)).sum := by
    intro l hl
    apply List.sum_nonneg
    intro x hx
    rw [List.mem_map] at hx
    obtain ⟨e, he, rfl⟩ := hx
    exact hl e he
  refine ⟨?_, ?_, ?_⟩
  · intro b d1 d2 hp he h0 h30 hd
    rw [total_cost_factored, total_cost_factored]
    dsimp only
    have hS : 0 ≤ b.hall.price + (b.equipment.map (fun e => e.price)).sum :=
      add_nonneg hp (sum_nonneg b.equipment he)
    have hk : 0 ≤ 1 - (b.client.discount : ℚ) / 100 := by
      have h30q : (b.client.discount : ℚ) ≤ 30 := by exact_mod_cast h30
      linarith
    have hdq : (d1 : ℚ) ≤ (d2 : ℚ) := by exact_mod_cast hd
    exact mul_le_mul_of_nonneg_right (mul_le_mul_of_nonneg_left hdq hS) hk
  · intro b e hep h0 h30
    rw [total_cost_factored, total_cost_factored]
    dsimp only
    rw [List.map_cons, List.sum_cons]
    have hk : 0 ≤ 1 - (b.client.discount : ℚ) / 100 := by
      have h30q : (b.client.discount : ℚ) ≤ 30 := by exact_mod_cast h30
      linarith
    have hdq : 0 ≤ (b.duration : ℚ) := Nat.cast_nonneg _
    apply mul_le_mul_of_nonneg_right _ hk
    apply mul_le_mul_of_nonneg_right _ hdq
    linarith
  · intro b a1 a2 hp he h01 h230 h12
    rw [total_cost_factored, total_cost_factored]
    dsimp only
    have hS : 0 ≤ b.hall.price + (b.equipment.map (fun e => e.price)).sum :=
      add_nonneg hp (sum_nonneg b.equipment he)
    have hdq : 0 ≤ (b.duration : ℚ) := Nat.cast_nonneg _
    have hq : (a1 : ℚ) ≤ (a2 : ℚ) := by exact_mod_cast h12
    have hfac : 1 - (a2 : ℚ) / 100 ≤ 1 - (a1 : ℚ) / 100 := by linarith
    exact mul_le_mul_of_nonneg_left hfac (mul_nonneg hS hdq)

/-- Instantiation of `total_cost_monotonicity` on a concrete booking
(2500-rate hall, one 500-rate item, discount 10): growing the duration from
1 to 3 hours, adding a 200-rate item, and raising the discount from 5 to 25
all move the cost in the stated direction. -/
theorem total_cost_monotonicity_witness :
    (Booking.calculate_total_cost { bookM with duration := 1 } ≤
      Booking.calculate_total_cost { bookM with duration := 3 }) ∧
    (Booking.calculate_total_cost bookM ≤
      Booking.calculate_total_cost { bookM with equipment := equipM :: bookM.equipment }) ∧
    (Booking.calculate_total_cost { bookM with client := { bookM.client with discount := 25 } } ≤
      Booking.calculate_total_cost { bookM with client := { bookM.client with discount := 5 } }) := by
  refine ⟨total_cost_monotonicity.1 bookM 1 3 ?_ ?_ ?_ ?_ ?_,
    total_cost_monotonicity.2.1 bookM equipM ?_ ?_ ?_,
    total_cost_monotonicity.2.2 bookM 5 25 ?_ ?_ ?_ ?_ ?_⟩
  · norm_num [bookM]
  · intro e he
    simp only [bookM, List.mem_singleton] at he
    rw [he]
    norm_num
  · norm_num [bookM]
  · norm_num [bookM]
  · norm_num
  · norm_num [equipM]
  · norm_num [bookM]
  · norm_num [bookM]
  · norm_num [bookM]
  · intro e he
    simp only [bookM, List.mem_singleton] at he
    rw [he]
    norm_num
  · norm_num
  · norm_num
  · norm_num

end PhotoStudio
